import Mathlib

/-!
Verification of the participatory-mapping tool (`app.py`).

Shallow embedding of the pure logic of `app.py`: the canonical header list,
the address normalizer, the geocoding adapter's result shaping, the schema
merge performed by `open_or_init_sheet`, the registration submit handler,
the administration save handler, and the map view helpers (`normalize_txt`,
the choropleth colour scale, `auto_view`).

Modelling conventions:
* Python strings are Lean `String`s; Python string truthiness (`if p:`) is
  the test `p ≠ ""`.
* Floating-point coordinates are modelled as rationals `ℚ`; the claims under
  verification are structural (order of components, thresholds, which rows
  are kept), not about rounding.
* The Google-Sheets worksheet is modelled by its observable content: a
  header row `List String` plus data rows `List (List String)`.
* Side effects of the submit handler (calling the geocoder, appending a row)
  are reified as an explicit effect trace.
-/

namespace MappingTool

/-- Python `", ".join(parts)` on a list of strings. -/
def joinComma : List String → String
  | [] => ""
  | [a] => a
  | a :: b :: l => a ++ ", " ++ joinComma (b :: l)

/-- Canonical ordered header list, from `get_headers` in `app.py`. -/
def get_headers : List String :=
  [ "record_id", "timestamp", "rep_name", "email", "space_name",
    "year_established", "street_and_number", "unit_or_sector", "comuna",
    "city", "region", "country", "postal_code", "full_address",
    "latitude", "longitude", "geocode_provider", "geocode_status", "notes" ]

/-- Model of `build_full_address` from `app.py`: the first component is
`street_and_number` unconditionally; `unit_or_sector` follows when
non-empty; then the non-empty members of
`[comuna, city, region, country, postal_code]` in that order; joined
with `", "`. -/
def build_full_address (street_and_number unit_or_sector comuna city region
    country postal_code : String) : String :=
  let parts := [street_and_number]
  let parts := if unit_or_sector ≠ "" then parts ++ [unit_or_sector] else parts
  let parts :=
    parts ++ ([comuna, city, region, country, postal_code].filter (· ≠ ""))
  joinComma parts

/-- Python `list(dict.fromkeys(l))`: keep the first occurrence of each
element, in order. -/
def dedupFirst : List String → List String
  | [] => []
  | a :: l => a :: dedupFirst (l.filter (· ≠ a))
  termination_by l => l.length
  decreasing_by
    simp only [List.length_cons]
    exact Nat.lt_succ_of_le (List.length_filter_le _ _)

/-- Header-conformance step of `open_or_init_sheet` in `app.py`, as a
function of the worksheet's current first row: an empty first row is
replaced by the canonical headers; a first row equal to the canonical
headers is kept; otherwise the new header row is
`list(dict.fromkeys(current + [c for c in needed if c not in current]))`. -/
def ensure_schema (first_row : List String) : List String :=
  if first_row = [] then get_headers
  else if first_row = get_headers then first_row
  else dedupFirst (first_row ++ get_headers.filter (fun c => !first_row.contains c))

/-- Python `str.strip()`: remove leading and trailing whitespace. -/
def pyStrip (s : String) : String :=
  String.mk
    (((s.toList.dropWhile Char.isWhitespace).reverse.dropWhile
        Char.isWhitespace).reverse)

/-- Model of `geocode_address` from `app.py`. The external provider call
inside the `try` block is modelled as a function returning either a thrown
exception's message (`Except.error`) or an optional best match; coordinates
are rationals. The embedding is a total function, so the adapter never
propagates an exception to its caller. -/
def geocode_address (provider : String → Except String (Option (ℚ × ℚ)))
    (full_address : String) : Option ℚ × Option ℚ × String :=
  match provider full_address with
  | .ok (some loc) => (some loc.1, some loc.2, "ok")
  | .ok none => (none, none, "not_found")
  | .error e => (none, none, "error: " ++ e)

/-- The record dictionary assembled by the register-tab submit handler in
`app.py`, one field per canonical header. -/
structure RecordR where
  record_id : String
  timestamp : String
  rep_name : String
  email : String
  space_name : String
  year_established : Int
  street_and_number : String
  unit_or_sector : String
  comuna : String
  city : String
  region : String
  country : String
  postal_code : String
  full_address : String
  latitude : Option ℚ
  longitude : Option ℚ
  geocode_provider : String
  geocode_status : String
  notes : String
deriving DecidableEq

/-- The form values of the register tab at submit time. -/
structure RegInput where
  rep_name : String
  email : String
  space_name : String
  year_established : Int
  street_and_number : String
  unit_or_sector : String
  comuna : String
  city : String
  region : String
  country : String
  postal_code : String
  notes : String
deriving DecidableEq

/-- Observable side effect of one submit: a call to the geocoder, or an
append of a record to the backing store. -/
inductive Effect where
  | geocodeCall (address : String)
  | appendCall (r : RecordR)
deriving DecidableEq

/-- Terminal outcome of one submit. -/
inductive SubmitResult where
  | validationError
  | geocodeFailure (attempted_address : String)
  | saved (r : RecordR)
deriving DecidableEq

/-- The register-tab submit handler of `app.py` (the `if submitted:` block),
with its side effects reified as a trace: it checks that the seven mandatory
fields are non-empty, builds the full address, geocodes it, and appends the
assembled record only when the geocode status is `"ok"` with both
coordinates present. `fresh_id` and `fresh_timestamp` stand for
`uuid.uuid4()` and `datetime.utcnow().isoformat()`. -/
def register_submit (inp : RegInput)
    (provider : String → Except String (Option (ℚ × ℚ)))
    (fresh_id fresh_timestamp : String) : List Effect × SubmitResult :=
  let mandatory := [inp.rep_name, inp.email, inp.space_name,
    inp.street_and_number, inp.comuna, inp.region, inp.country]
  if mandatory.any (· = "") then
    ([], .validationError)
  else
    let full_address := build_full_address inp.street_and_number
      inp.unit_or_sector inp.comuna inp.city inp.region inp.country
      inp.postal_code
    let res := geocode_address provider full_address
    if res.2.2 ≠ "ok" ∨ res.1 = none ∨ res.2.1 = none then
      ([.geocodeCall full_address], .geocodeFailure full_address)
    else
      let record : RecordR :=
        { record_id := fresh_id
          timestamp := fresh_timestamp
          rep_name := pyStrip inp.rep_name
          email := pyStrip inp.email
          space_name := pyStrip inp.space_name
          year_established := inp.year_established
          street_and_number := pyStrip inp.street_and_number
          unit_or_sector := pyStrip inp.unit_or_sector
          comuna := pyStrip inp.comuna
          city := pyStrip inp.city
          region := pyStrip inp.region
          country := pyStrip inp.country
          postal_code := pyStrip inp.postal_code
          full_address := full_address
          latitude := res.1
          longitude := res.2.1
          geocode_provider := "Nominatim (OSM)"
          geocode_status := res.2.2
          notes := pyStrip inp.notes }
      ([.geocodeCall full_address, .appendCall record], .saved record)

/-- A concrete valid form input, matching the form's placeholders. -/
def sampleInput : RegInput :=
  { rep_name := "Jane Doe", email := "jane@dominio.cl",
    space_name := "Huerta X", year_established := 2020,
    street_and_number := "Av. Ejemplo 1234", unit_or_sector := "",
    comuna := "Talagante", city := "", region := "Región Metropolitana",
    country := "Chile", postal_code := "", notes := "" }

/-- The record `register_submit` assembles for `sampleInput` when the
provider resolves the address to `(1, 2)`. -/
def sampleSaved : RecordR :=
  { record_id := "id-1", timestamp := "ts-1", rep_name := "Jane Doe",
    email := "jane@dominio.cl", space_name := "Huerta X",
    year_established := 2020, street_and_number := "Av. Ejemplo 1234",
    unit_or_sector := "", comuna := "Talagante", city := "",
    region := "Región Metropolitana", country := "Chile", postal_code := "",
    full_address := "Av. Ejemplo 1234, Talagante, Región Metropolitana, Chile",
    latitude := some 1, longitude := some 2,
    geocode_provider := "Nominatim (OSM)", geocode_status := "ok",
    notes := "" }

/-- The sample input with a creation year outside `[1900, current_year]`. -/
def sampleBadYearInput : RegInput :=
  { sampleInput with year_established := 1800 }

/-- One row of the administration editor: the auxiliary `delete` checkbox
column plus the row's cells as column-name/value pairs. -/
structure EditedRow where
  delete : Bool
  cells : List (String × String)
deriving DecidableEq

/-- Re-coercion of one remaining row in the intranet save handler: every
canonical column in order, a column missing from the row backfilled with
`""` (and non-canonical columns dropped by the `keep[get_headers()]`
reindex). -/
def row_to_canonical (cells : List (String × String)) : List String :=
  get_headers.map (fun c => ((cells.lookup c).getD ""))

/-- Model of `overwrite_df` from `app.py`, observed as the store contents
it leaves: the worksheet is cleared and rewritten as the header row
followed by the data rows. -/
def overwrite_df (cols : List String) (rows : List (List String)) :
    List (List String) :=
  cols :: rows

/-- The intranet-tab save handler of `app.py`: drop the rows whose `delete`
flag is set, backfill missing canonical columns with `""`, reorder each row
to canonical header order, and persist everything with one full overwrite. -/
def admin_save (edited : List EditedRow) : List (List String) :=
  let keep := edited.filter (fun r => !r.delete)
  overwrite_df get_headers (keep.map (fun r => row_to_canonical r.cells))

/-- Combining diacritical marks (Unicode category Mn in the block the
decompositions below emit), removed by `normalize_txt`. -/
def isMn (c : Char) : Bool := decide (0x300 ≤ c.toNat ∧ c.toNat ≤ 0x36F)

/-- Canonical decomposition (`unicodedata.normalize("NFD", ·)`) restricted
to the accented Latin letters of the app's Spanish-language data: the
accented vowels, `ñ`/`Ñ` and `ü`/`Ü` decompose into the base letter plus a
combining mark; every other character is its own decomposition. -/
def nfdChar (c : Char) : List Char :=
  if c = 'á' then ['a', Char.ofNat 0x301]
  else if c = 'é' then ['e', Char.ofNat 0x301]
  else if c = 'í' then ['i', Char.ofNat 0x301]
  else if c = 'ó' then ['o', Char.ofNat 0x301]
  else if c = 'ú' then ['u', Char.ofNat 0x301]
  else if c = 'Á' then ['A', Char.ofNat 0x301]
  else if c = 'É' then ['E', Char.ofNat 0x301]
  else if c = 'Í' then ['I', Char.ofNat 0x301]
  else if c = 'Ó' then ['O', Char.ofNat 0x301]
  else if c = 'Ú' then ['U', Char.ofNat 0x301]
  else if c = 'ñ' then ['n', Char.ofNat 0x303]
  else if c = 'Ñ' then ['N', Char.ofNat 0x303]
  else if c = 'ü' then ['u', Char.ofNat 0x308]
  else if c = 'Ü' then ['U', Char.ofNat 0x308]
  else [c]

/-- Model of `normalize_txt` from `app.py`: NFD-decompose, drop combining
marks, normalize the typographic apostrophes (`’`, `´` and the grave
accent) to `'`, lowercase, and strip surrounding whitespace.
`Char.toLower` agrees with Python `str.lower` on the mark-stripped text
handled here. -/
def normalize_txt (s : String) : String :=
  let decomposed := (s.toList.map nfdChar).flatten
  let stripped := decomposed.filter (fun c => !isMn c)
  let replaced := stripped.map
    (fun c =>
      if c = '’' ∨ c = '´' ∨ c = Char.ofNat 0x60 then Char.ofNat 0x27 else c)
  String.mk
    (((replaced.map Char.toLower).dropWhile Char.isWhitespace).reverse.dropWhile
        Char.isWhitespace).reverse

/-- Python `int(q)` (truncation toward zero) on a rational. -/
def pyInt (q : ℚ) : ℤ := if 0 ≤ q then ⌊q⌋ else -⌊-q⌋

/-- Model of `lerp` from the choropleth branch of `app.py`:
`int(a + (b - a) * t)`. -/
def lerp (a b : ℤ) (t : ℚ) : ℤ := pyInt ((a : ℚ) + ((b : ℚ) - (a : ℚ)) * t)

/-- Light endpoint of the choropleth colour scale (`min_col`). -/
def min_col : ℤ × ℤ × ℤ := (198, 219, 239)

/-- Dark endpoint of the choropleth colour scale (`max_col`). -/
def max_col : ℤ × ℤ × ℤ := (8, 48, 107)

/-- The RGBA colour the choropleth branch assigns to a boundary feature
matched to `n` records, when the largest per-region count is `maxcount`:
`t = n / max(1, maxcount)` and each channel is `lerp` between the fixed
endpoints. -/
def feature_color (n maxcount : ℕ) (alpha : ℤ) : List ℤ :=
  let max_val : ℕ := max 1 maxcount
  let t : ℚ := (n : ℚ) / (max_val : ℚ)
  [lerp min_col.1 max_col.1 t, lerp min_col.2.1 max_col.2.1 t,
   lerp min_col.2.2 max_col.2.2 t, alpha]

/-- One stored record as the map tab sees it after coordinate filtering. -/
structure PointRec where
  region : String
  latitude : ℚ
  longitude : ℚ
deriving DecidableEq

/-- Python `points_all.groupby("region").size()` restricted to one region
value. -/
def region_count (points_all : List PointRec) (r : String) : ℕ :=
  (points_all.filter (fun p => p.region == r)).length

/-- The per-region counts the choropleth branch computes. It takes the
region filter as an argument only to document that, like the source
(`rc = points_all.groupby("region").size()`), it ignores it: the counts
come from ALL records. -/
def choropleth_region_count (points_all : List PointRec)
    (_region_filter : String) (r : String) : ℕ :=
  region_count points_all r

/-- Mean of a coordinate series (`series.mean()`). -/
def lmean (l : List ℚ) : ℚ := l.sum / l.length

/-- Maximum of a coordinate series (`series.max()`; 0 on an empty series,
which the map tab rules out before calling `auto_view`). -/
def lmax : List ℚ → ℚ
  | [] => 0
  | [a] => a
  | a :: b :: t => max a (lmax (b :: t))

/-- Minimum of a coordinate series (`series.min()`). -/
def lmin : List ℚ → ℚ
  | [] => 0
  | [a] => a
  | a :: b :: t => min a (lmin (b :: t))

/-- Model of `auto_view` from `app.py`: centre at the mean
latitude/longitude, and zoom 12/10/8/6 according to whether both
coordinate ranges are below 0.1/0.5/2 degrees. -/
def auto_view (lats lons : List ℚ) : ℚ × ℚ × ℕ :=
  let lat_mean := lmean lats
  let lon_mean := lmean lons
  let lat_range := lmax lats - lmin lats
  let lon_range := lmax lons - lmin lons
  let z : ℕ :=
    if lat_range < 1/10 ∧ lon_range < 1/10 then 12
    else if lat_range < 1/2 ∧ lon_range < 1/2 then 10
    else if lat_range < 2 ∧ lon_range < 2 then 8
    else 6
  (lat_mean, lon_mean, z)

/-- The map tab's zoom selection
(`zoom_level = zoom_manual if zoom_manual else zoom_auto`): the manual
value wins whenever it is truthy (non-zero). -/
def zoom_level (zoom_manual zoom_auto : ℕ) : ℕ :=
  if zoom_manual ≠ 0 then zoom_manual else zoom_auto

/-- Helper: with a non-empty first component, `build_full_address` is the
comma-space join of the non-empty members of the 7-tuple in the fixed order
street, unit, comuna, city, region, country, postal code. -/
theorem build_full_address_eq_filter (s u c ci r co p : String) (hs : s ≠ "") :
    build_full_address s u c ci r co p =
      joinComma (([s, u, c, ci, r, co, p]).filter (· ≠ "")) := by
  by_cases hu : u = "" <;>
    simp [build_full_address, List.filter, hs, hu]

theorem mem_dedupFirst {a : String} : ∀ {l : List String}, a ∈ dedupFirst l ↔ a ∈ l := by
  intro l
  induction l using dedupFirst.induct with
  | case1 => simp [dedupFirst]
  | case2 x l ih =>
    simp only [dedupFirst, List.mem_cons, ih, List.mem_filter,
      decide_eq_true_eq]
    constructor
    · rintro (rfl | ⟨h, _⟩)
      · exact Or.inl rfl
      · exact Or.inr h
    · rintro (rfl | h)
      · exact Or.inl rfl
      · by_cases hax : a = x
        · exact Or.inl hax
        · exact Or.inr ⟨h, hax⟩

theorem nodup_dedupFirst : ∀ (l : List String), (dedupFirst l).Nodup := by
  intro l
  induction l using dedupFirst.induct with
  | case1 => simp [dedupFirst]
  | case2 x l ih =>
    simp only [dedupFirst, List.nodup_cons]
    refine ⟨fun hx => ?_, ih⟩
    have := (mem_dedupFirst.mp hx)
    simp at this

theorem dedupFirst_eq_self : ∀ {l : List String}, l.Nodup → dedupFirst l = l := by
  intro l
  induction l using dedupFirst.induct with
  | case1 => simp [dedupFirst]
  | case2 x l ih =>
    intro h
    rw [List.nodup_cons] at h
    have hf : l.filter (· ≠ x) = l := by
      apply List.filter_eq_self.mpr
      intro b hb
      simp only [decide_eq_true_eq]
      exact fun hbx => h.1 (hbx ▸ hb)
    rw [hf] at ih
    simp only [dedupFirst, hf, ih h.2]

theorem get_headers_nodup : get_headers.Nodup := by decide

/-- The merged header row contains a column iff it was a pre-existing
column or a canonical column. -/
theorem mem_ensure_schema {c : String} {h : List String} :
    c ∈ ensure_schema h ↔ (c ∈ h ∨ c ∈ get_headers) := by
  unfold ensure_schema
  by_cases h0 : h = []
  · subst h0; simp
  · by_cases hh : h = get_headers
    · subst hh; simp [h0]
    · simp only [h0, hh, if_false]
      rw [mem_dedupFirst]
      simp only [List.mem_append, List.mem_filter, Bool.not_eq_true',
        List.elem_eq_mem, decide_eq_false_iff_not]
      tauto

/-- On a duplicate-free non-empty header row, the merge is literally the
existing columns followed by the canonical columns not already present. -/
theorem ensure_schema_of_nodup {h : List String} (h0 : h ≠ []) (hnd : h.Nodup) :
    ensure_schema h = h ++ get_headers.filter (fun c => !h.contains c) := by
  unfold ensure_schema
  by_cases hh : h = get_headers
  · subst hh
    have hfil : get_headers.filter (fun c => !get_headers.contains c) = [] := by
      apply List.filter_eq_nil_iff.mpr
      intro c hc
      simp [hc]
    simp [h0, hfil]
  · simp only [h0, hh, if_false]
    apply dedupFirst_eq_self
    apply List.Nodup.append hnd (List.Nodup.filter _ get_headers_nodup)
    intro c hch hcf
    have hnc := List.of_mem_filter hcf
    simp only [Bool.not_eq_true', List.elem_eq_mem,
      decide_eq_false_iff_not] at hnc
    exact hnc hch

theorem ensure_schema_nil : ensure_schema [] = get_headers := by
  unfold ensure_schema
  rw [if_pos rfl]

theorem ensure_schema_headers : ensure_schema get_headers = get_headers := by
  unfold ensure_schema
  rw [if_neg (by decide), if_pos rfl]

/-- Helper: unfolding equation of `dedupFirst` on a non-empty list. -/
theorem dedupFirst_cons (a : String) (l : List String) :
    dedupFirst (a :: l) = a :: dedupFirst (l.filter (· ≠ a)) := by
  simp [dedupFirst]

/-- Helper: deduplicating a list followed by a duplicate-free block of
fresh elements keeps the block intact after the deduplicated prefix. -/
theorem dedupFirst_append_of_disjoint :
    ∀ (l m : List String), (∀ x ∈ m, x ∉ l) → m.Nodup →
      dedupFirst (l ++ m) = dedupFirst l ++ m := by
  intro l
  induction l using dedupFirst.induct with
  | case1 =>
    intro m _ hnd
    have h1 : dedupFirst ([] ++ m) = m := by
      rw [List.nil_append]
      exact dedupFirst_eq_self hnd
    have h2 : dedupFirst ([] : List String) = [] := by
      simp [dedupFirst]
    rw [h1, h2, List.nil_append]
  | case2 a l ih =>
    intro m hdisj hnd
    have hma : ∀ x ∈ m, x ≠ a := by
      intro x hx hxa
      exact hdisj x hx (hxa ▸ List.mem_cons_self a l)
    have hmf : m.filter (· ≠ a) = m := by
      apply List.filter_eq_self.mpr
      intro b hb
      simp only [decide_eq_true_eq]
      exact hma b hb
    have hd2 : ∀ x ∈ m, x ∉ l.filter (· ≠ a) := fun x hx hxl =>
      hdisj x hx (List.mem_cons_of_mem a (List.mem_of_mem_filter hxl))
    rw [List.cons_append, dedupFirst_cons, List.filter_append, hmf,
      ih m hd2 hnd, dedupFirst_cons, List.cons_append]

/-- Helper: for every non-empty pre-existing header row, the ensured header
is the pre-existing columns (first occurrences, original order) followed by
exactly the canonical columns not already present. -/
theorem ensure_schema_order (h : List String) (h0 : h ≠ []) :
    ensure_schema h = dedupFirst h ++ get_headers.filter (fun c => !h.contains c) := by
  by_cases hh : h = get_headers
  · subst hh
    have hfil : get_headers.filter (fun c => !get_headers.contains c) = [] := by
      apply List.filter_eq_nil_iff.mpr
      intro c hc
      simp [hc]
    rw [ensure_schema_headers, hfil, List.append_nil,
      dedupFirst_eq_self get_headers_nodup]
  · unfold ensure_schema
    rw [if_neg h0, if_neg hh]
    apply dedupFirst_append_of_disjoint
    · intro x hx
      have hnx := List.of_mem_filter hx
      simp only [Bool.not_eq_true', List.elem_eq_mem,
        decide_eq_false_iff_not] at hnx
      exact hnx
    · exact List.Nodup.filter _ get_headers_nodup

/-- Running the header-conformance step twice gives the same header row as
running it once. -/
theorem ensure_schema_idem (h : List String) :
    ensure_schema (ensure_schema h) = ensure_schema h := by
  by_cases h0 : h = []
  · subst h0
    rw [ensure_schema_nil, ensure_schema_headers]
  · by_cases hh : h = get_headers
    · subst hh
      rw [ensure_schema_headers, ensure_schema_headers]
    · set m := ensure_schema h with hm
      have hnodup : m.Nodup := by
        rw [hm]
        unfold ensure_schema
        rw [if_neg h0, if_neg hh]
        exact nodup_dedupFirst _
      have hmem : ∀ c ∈ get_headers, c ∈ m := by
        intro c hc
        rw [hm, mem_ensure_schema]
        exact Or.inr hc
      have hm0 : m ≠ [] := by
        obtain ⟨a, t, rfl⟩ := List.exists_cons_of_ne_nil h0
        refine List.ne_nil_of_mem (a := a) ?_
        rw [hm, mem_ensure_schema]
        exact Or.inl (List.mem_cons_self a t)
      by_cases hmh : m = get_headers
      · unfold ensure_schema
        rw [if_neg hm0, if_pos hmh]
      · have hfil : get_headers.filter (fun c => !m.contains c) = [] := by
          apply List.filter_eq_nil_iff.mpr
          intro c hc
          simp [hmem c hc]
        unfold ensure_schema
        rw [if_neg hm0, if_neg hmh, hfil, List.append_nil]
        exact dedupFirst_eq_self hnodup

/-- Helper: `lerp a b t` is the truncated affine map `a - (a - b)·t`. -/
theorem lerp_eq_affine (a b : ℤ) (t : ℚ) :
    lerp a b t = pyInt ((a : ℚ) - ((a : ℚ) - (b : ℚ)) * t) := by
  unfold lerp
  congr 1
  ring

/-- C1: for non-empty `street_and_number`, the output components are
street_and_number, then unit_or_sector if non-empty, then the non-empty
members of comuna, city, region, country, postal_code in that fixed order,
joined with `", "`; and the spec's example input evaluates to the spec's
example output. -/
theorem C1_build_full_address_order :
    (∀ s u c ci r co p : String, s ≠ "" →
      build_full_address s u c ci r co p =
        joinComma (([s, u, c, ci, r, co, p]).filter (· ≠ ""))) ∧
    build_full_address "Av. Ejemplo 1234" "" "Talagante" "" "Región Metropolitana"
        "Chile" "" = "Av. Ejemplo 1234, Talagante, Región Metropolitana, Chile" := by
  exact ⟨build_full_address_eq_filter, rfl⟩

/-- Closed witness for C1's universally quantified part at a concrete input. -/
theorem C1_build_full_address_order_witness :
    build_full_address "Calle 1" "Depto 2" "Talagante" "" "" "Chile" "" =
      joinComma ((["Calle 1", "Depto 2", "Talagante", "", "", "Chile", ""]).filter
        (· ≠ "")) :=
  C1_build_full_address_order.1 "Calle 1" "Depto 2" "Talagante" "" "" "Chile" ""
    (by decide)

/-- C10: `build_full_address` is total with no check of `street_and_number`:
all-empty input yields `""`; empty street with some non-empty later field
yields a result starting with `", "` (an empty first component). -/
theorem C10_build_full_address_no_precondition :
    build_full_address "" "" "" "" "" "" "" = "" ∧
    (∀ u c ci r co p : String,
      (u ≠ "" ∨ c ≠ "" ∨ ci ≠ "" ∨ r ≠ "" ∨ co ≠ "" ∨ p ≠ "") →
      ∃ rest : String, build_full_address "" u c ci r co p = ", " ++ rest) := by
  constructor
  · rfl
  · intro u c ci r co p h
    by_cases hu : u = "" <;>
      by_cases hc : c = "" <;>
        by_cases hci : ci = "" <;>
          by_cases hr : r = "" <;>
            by_cases hco : co = "" <;>
              by_cases hp : p = "" <;>
                simp_all [build_full_address, List.filter, joinComma]

/-- Closed witness for C10's universally quantified part at a concrete input. -/
theorem C10_build_full_address_no_precondition_witness :
    ∃ rest : String, build_full_address "" "" "Talagante" "" "" "" "" = ", " ++ rest :=
  C10_build_full_address_no_precondition.2 "" "Talagante" "" "" "" ""
    (Or.inr (Or.inl (by decide)))

/-- C3 counterexample: on the duplicated pre-existing header `["a", "a"]`
the merge drops the second occurrence, so it does not produce exactly the
existing columns in their original order followed by the missing canonical
columns. -/
theorem C3_ensure_schema_counterexample :
    ensure_schema ["a", "a"] ≠
      ["a", "a"] ++ get_headers.filter (fun c => !(["a", "a"].contains c)) := by
  intro heq
  have h1 : (ensure_schema ["a", "a"]).Nodup := by
    unfold ensure_schema
    rw [if_neg (by decide), if_neg (by decide)]
    exact nodup_dedupFirst _
  rw [heq] at h1
  simp at h1

/-- C3 (amended): the header-conformance step is idempotent for every
pre-existing header row, and on a duplicate-free non-empty pre-existing
header it produces exactly the existing columns in their original order
followed by the canonical columns not already present; a duplicated
pre-existing column keeps only its first occurrence. -/
theorem C3_ensure_schema_idempotent_merge :
    (∀ h : List String, ensure_schema (ensure_schema h) = ensure_schema h) ∧
    (∀ h : List String, h ≠ [] → h.Nodup →
      ensure_schema h = h ++ get_headers.filter (fun c => !h.contains c)) :=
  ⟨ensure_schema_idem, fun _ h0 hnd => ensure_schema_of_nodup h0 hnd⟩

/-- Closed witness for C3 at the concrete pre-existing header `["extra"]`. -/
theorem C3_ensure_schema_idempotent_merge_witness :
    ensure_schema (ensure_schema ["extra"]) = ensure_schema ["extra"] ∧
    ensure_schema ["extra"] =
      ["extra"] ++ get_headers.filter (fun c => !(["extra"].contains c)) :=
  ⟨C3_ensure_schema_idempotent_merge.1 ["extra"],
   C3_ensure_schema_idempotent_merge.2 ["extra"] (by decide) (by decide)⟩

/-- C5 counterexample: starting from the pre-existing header `["notes"]`
(whose only column is canonical, so the claim predicts the canonical list
with no extras), the resulting header row is not the canonical list: the
pre-existing position of `"notes"` is kept first. -/
theorem C5_header_invariant_counterexample :
    ensure_schema ["notes"] ≠ get_headers := by
  rw [ensure_schema_of_nodup (by decide) (by decide)]
  intro heq
  have hhd := congrArg List.head? heq
  rw [List.head?_append_of_ne_nil] at hhd
  · simp [get_headers] at hhd
  · decide

/-- C5 (amended): after the header-conformance step every canonical column
and every pre-existing column is present; for every non-empty pre-existing
header the resulting order is the pre-existing columns (first occurrences,
original order) first, followed by exactly the canonical columns not
already present; consequently the result equals the canonical list
followed by the extras exactly when the pre-existing header already was
the canonical list followed by extras (or was empty). -/
theorem C5_header_invariant :
    (∀ h : List String, ∀ c : String,
      c ∈ get_headers ∨ c ∈ h → c ∈ ensure_schema h) ∧
    ensure_schema [] = get_headers ∧
    (∀ h : List String, h ≠ [] →
      ensure_schema h =
        dedupFirst h ++ get_headers.filter (fun c => !h.contains c)) ∧
    (∀ extras : List String, (get_headers ++ extras).Nodup →
      ensure_schema (get_headers ++ extras) = get_headers ++ extras) := by
  refine ⟨?_, ensure_schema_nil, ensure_schema_order, ?_⟩
  · intro h c hc
    rw [mem_ensure_schema]
    tauto
  · intro extras hnd
    have h0 : get_headers ++ extras ≠ [] := by
      simp [get_headers]
    rw [ensure_schema_of_nodup h0 hnd]
    have hfil :
        get_headers.filter (fun c => !((get_headers ++ extras).contains c)) = [] := by
      apply List.filter_eq_nil_iff.mpr
      intro c hc
      simp [hc]
    rw [hfil, List.append_nil]

/-- Closed witness for C5 at a concrete column, a concrete mixed header and
a concrete extras list. -/
theorem C5_header_invariant_witness :
    "record_id" ∈ ensure_schema ["extra"] ∧
    ensure_schema ["notes", "extra"] =
      dedupFirst ["notes", "extra"] ++
        get_headers.filter (fun c => !(["notes", "extra"].contains c)) ∧
    ensure_schema (get_headers ++ ["extra"]) = get_headers ++ ["extra"] :=
  ⟨C5_header_invariant.1 ["extra"] "record_id" (Or.inl (by decide)),
   C5_header_invariant.2.2.1 ["notes", "extra"] (by decide),
   C5_header_invariant.2.2.2 ["extra"] (by decide)⟩

/-- C6: `geocode_address` is total over its inputs (it is a Lean function,
so it never raises); when the provider finds no match it returns
`(none, none, "not_found")`, and when the provider throws it returns
`(none, none, "error:" ++ description)` instead of propagating. -/
theorem C6_geocode_address_statuses :
    ∀ (provider : String → Except String (Option (ℚ × ℚ))) (addr : String),
      (provider addr = .ok none →
        geocode_address provider addr = (none, none, "not_found")) ∧
      (∀ e : String, provider addr = .error e →
        ∃ desc : String,
          geocode_address provider addr = (none, none, "error:" ++ desc)) := by
  intro provider addr
  constructor
  · intro hp
    simp [geocode_address, hp]
  · intro e hp
    refine ⟨" " ++ e, ?_⟩
    simp only [geocode_address, hp]
    rfl

/-- Closed witness for C6 with a no-match provider and a throwing provider. -/
theorem C6_geocode_address_statuses_witness :
    geocode_address (fun _ => .ok none) "x" = (none, none, "not_found") ∧
    ∃ desc : String,
      geocode_address (fun _ => .error "boom") "x" = (none, none, "error:" ++ desc) :=
  ⟨(C6_geocode_address_statuses (fun _ => .ok none) "x").1 rfl,
   (C6_geocode_address_statuses (fun _ => .error "boom") "x").2 "boom" rfl⟩

/-- C2: when the geocode status is not `"ok"` the submit handler performs no
append, and every record it does append has `geocode_status = "ok"` and
both coordinates present. -/
theorem C2_store_only_geocoded_records :
    ∀ (inp : RegInput) (provider : String → Except String (Option (ℚ × ℚ)))
      (fid fts : String),
      ((geocode_address provider
          (build_full_address inp.street_and_number inp.unit_or_sector
            inp.comuna inp.city inp.region inp.country inp.postal_code)).2.2
            ≠ "ok" →
        ∀ r : RecordR,
          Effect.appendCall r ∉ (register_submit inp provider fid fts).1) ∧
      (∀ r : RecordR,
        Effect.appendCall r ∈ (register_submit inp provider fid fts).1 →
          r.geocode_status = "ok" ∧ r.latitude ≠ none ∧ r.longitude ≠ none) := by
  intro inp provider fid fts
  unfold register_submit
  set full_address := build_full_address inp.street_and_number
    inp.unit_or_sector inp.comuna inp.city inp.region inp.country
    inp.postal_code with hfa
  by_cases hv : ([inp.rep_name, inp.email, inp.space_name,
      inp.street_and_number, inp.comuna, inp.region, inp.country]).any (· = "")
  · simp [hv]
  · by_cases hg : (geocode_address provider full_address).2.2 ≠ "ok" ∨
        (geocode_address provider full_address).1 = none ∨
        (geocode_address provider full_address).2.1 = none
    · simp [hv, hg]
    · push_neg at hg
      have hcond : ¬((geocode_address provider full_address).2.2 ≠ "ok" ∨
          (geocode_address provider full_address).1 = none ∨
          (geocode_address provider full_address).2.1 = none) := by
        push_neg
        exact hg
      refine ⟨fun hne => absurd hg.1 hne, ?_⟩
      intro r hr
      rw [if_neg hv, if_neg hcond] at hr
      simp only [List.mem_cons, List.not_mem_nil, or_false,
        reduceCtorEq, false_or, Effect.appendCall.injEq] at hr
      subst hr
      exact ⟨hg.1, hg.2.1, hg.2.2⟩

/-- Closed witness for C2: a failed geocode appends nothing, and a record
appended after a successful geocode carries status `"ok"` and coordinates. -/
theorem C2_store_only_geocoded_records_witness :
    Effect.appendCall sampleSaved ∉
      (register_submit sampleInput (fun _ => .ok none) "id-1" "ts-1").1 ∧
    (sampleSaved.geocode_status = "ok" ∧ sampleSaved.latitude ≠ none ∧
      sampleSaved.longitude ≠ none) :=
  ⟨(C2_store_only_geocoded_records sampleInput (fun _ => .ok none)
      "id-1" "ts-1").1 (by decide) sampleSaved,
   (C2_store_only_geocoded_records sampleInput (fun _ => .ok (some (1, 2)))
      "id-1" "ts-1").2 sampleSaved (by decide)⟩

/-- C4 (amended): if any of the seven mandatory fields is empty the submit
handler halts with a validation error and performs no geocode and no store
call; the `year_established` bound is enforced by the number-input widget
(`min_value=1900`, `max_value=current year`), not by the handler. -/
theorem C4_validation_blocks_side_effects :
    ∀ (inp : RegInput) (provider : String → Except String (Option (ℚ × ℚ)))
      (fid fts : String),
      (inp.rep_name = "" ∨ inp.email = "" ∨ inp.space_name = "" ∨
       inp.street_and_number = "" ∨ inp.comuna = "" ∨ inp.region = "" ∨
       inp.country = "") →
      register_submit inp provider fid fts = ([], .validationError) := by
  intro inp provider fid fts h
  have hany : ([inp.rep_name, inp.email, inp.space_name,
      inp.street_and_number, inp.comuna, inp.region,
      inp.country]).any (· = "") = true := by
    simp only [List.any_cons, List.any_nil, Bool.or_eq_true,
      decide_eq_true_eq, Bool.or_false]
    tauto
  unfold register_submit
  rw [if_pos hany]

/-- Closed witness for C4 at a concrete input with an empty mandatory field. -/
theorem C4_validation_blocks_side_effects_witness :
    register_submit { sampleInput with rep_name := "" } (fun _ => .ok none)
        "id-1" "ts-1" = ([], SubmitResult.validationError) :=
  C4_validation_blocks_side_effects _ _ _ _ (Or.inl rfl)

/-- C4 counterexample: with all mandatory fields non-empty and
`year_established = 1800` (outside `[1900, current_year]`), the submit
handler does not halt with a validation error — it invokes the geocoder. -/
theorem C4_year_not_validated_counterexample :
    sampleBadYearInput.year_established < 1900 ∧
    (register_submit sampleBadYearInput (fun _ => .ok none) "id-1"
        "ts-1").2 ≠ SubmitResult.validationError ∧
    Effect.geocodeCall
        "Av. Ejemplo 1234, Talagante, Región Metropolitana, Chile" ∈
      (register_submit sampleBadYearInput (fun _ => .ok none) "id-1"
        "ts-1").1 := by
  decide

/-- C7: the administration save keeps exactly the unflagged rows in order,
rewrites each under the canonical headers with missing columns backfilled
empty, and the persisted store is the canonical header row followed by
those rows; in particular with two rows of which the second is flagged,
the store afterwards holds only the first row. -/
theorem C7_admin_save_deletes_flagged :
    (∀ edited : List EditedRow,
      admin_save edited =
        get_headers ::
          (edited.filter (fun r => !r.delete)).map
            (fun r => get_headers.map (fun c => ((r.cells.lookup c).getD "")))) ∧
    (∀ r1 r2 : EditedRow, r1.delete = false → r2.delete = true →
      admin_save [r1, r2] =
        [get_headers,
         get_headers.map (fun c => ((r1.cells.lookup c).getD ""))]) := by
  constructor
  · intro edited
    rfl
  · intro r1 r2 h1 h2
    simp [admin_save, overwrite_df, row_to_canonical, List.filter, h1, h2]

/-- Closed witness for C7 at a concrete two-row grid with the second row
flagged for deletion. -/
theorem C7_admin_save_deletes_flagged_witness :
    admin_save [⟨false, [("record_id", "a")]⟩, ⟨true, [("record_id", "b")]⟩] =
      [get_headers,
       get_headers.map
         (fun c => ((([("record_id", "a")] : List (String × String)).lookup
           c).getD ""))] :=
  C7_admin_save_deletes_flagged.2 ⟨false, [("record_id", "a")]⟩
    ⟨true, [("record_id", "b")]⟩ rfl rfl

/-- C8: the choropleth counts come from all records for every region-filter
choice; each feature colour is the truncated linear interpolation between
the fixed light endpoint `(198, 219, 239)` and dark endpoint `(8, 48, 107)`
as a function of `n / max(1, maxcount)`, hitting the light endpoint at 0
and the dark endpoint at the maximum; and the region matching of the stored
name `"Región Metropolitana"` with the boundary name
`"region metropolitana"` succeeds because both normalize to the same key. -/
theorem C8_choropleth :
    (∀ (points_all : List PointRec) (f₁ f₂ r : String),
      choropleth_region_count points_all f₁ r =
        choropleth_region_count points_all f₂ r) ∧
    (∀ (n maxcount : ℕ) (alpha : ℤ),
      feature_color n maxcount alpha =
        [pyInt (198 - 190 * ((n : ℚ) / (max 1 maxcount : ℕ))),
         pyInt (219 - 171 * ((n : ℚ) / (max 1 maxcount : ℕ))),
         pyInt (239 - 132 * ((n : ℚ) / (max 1 maxcount : ℕ))), alpha]) ∧
    (∀ alpha : ℤ, ∀ m : ℕ,
      feature_color 0 m alpha = [198, 219, 239, alpha] ∧
      (1 ≤ m → feature_color m m alpha = [8, 48, 107, alpha])) ∧
    normalize_txt "Región Metropolitana" = normalize_txt "region metropolitana" := by
  refine ⟨fun _ _ _ _ => rfl, ?_, ?_, by decide⟩
  · intro n maxcount alpha
    simp only [feature_color, min_col, max_col, lerp_eq_affine]
    norm_num
  · intro alpha m
    constructor
    · simp [feature_color, lerp, pyInt, min_col, max_col]
    · intro hm
      have hmax : max 1 m = m := Nat.max_eq_right hm
      have hm0 : (m : ℚ) ≠ 0 := Nat.cast_ne_zero.mpr (by omega)
      simp only [feature_color, hmax, div_self hm0, lerp, min_col, max_col]
      norm_num [pyInt]

/-- Closed witness for C8's dark-endpoint clause at a concrete maximum
count. -/
theorem C8_choropleth_witness :
    feature_color 2 2 255 = [8, 48, 107, 255] :=
  (C8_choropleth.2.2.1 255 2).2 (by decide)

/-- C9 counterexample: two point sets with identical bounding extents
(equal minima and maxima in both coordinates) on which `auto_view` yields
different camera centres — the centre is the coordinate mean, not a
function of the bounding extent. -/
theorem C9_auto_view_counterexample :
    lmin [0, 10] = lmin [0, 0, 10] ∧ lmax [0, 10] = lmax [0, 0, 10] ∧
    (auto_view [0, 10] [0, 10]).1 ≠ (auto_view [0, 0, 10] [0, 0, 10]).1 := by
  refine ⟨by norm_num [lmin], by norm_num [lmax], ?_⟩
  simp only [auto_view, lmean]
  norm_num

/-- C9 (amended): the zoom is chosen by fixed thresholds on the larger of
the latitude and longitude spans (12 below 0.1°, 10 below 0.5°, 8 below
2°, else 6), the camera centre is the mean latitude and longitude of all
valid points (not a function of the bounding extent alone), and a truthy
manual zoom overrides the derived one. -/
theorem C9_auto_view_zoom_thresholds :
    (∀ lats lons : List ℚ,
      (auto_view lats lons).2.2 =
        (if max (lmax lats - lmin lats) (lmax lons - lmin lons) < 1/10 then 12
         else if max (lmax lats - lmin lats) (lmax lons - lmin lons) < 1/2 then 10
         else if max (lmax lats - lmin lats) (lmax lons - lmin lons) < 2 then 8
         else 6)) ∧
    (∀ lats lons : List ℚ,
      (auto_view lats lons).1 = lmean lats ∧
      (auto_view lats lons).2.1 = lmean lons) ∧
    (∀ zm za : ℕ, zm ≠ 0 → zoom_level zm za = zm) ∧
    (∀ za : ℕ, zoom_level 0 za = za) := by
  refine ⟨?_, fun _ _ => ⟨rfl, rfl⟩, ?_, fun _ => rfl⟩
  · intro lats lons
    simp only [auto_view, max_lt_iff]
  · intro zm za h
    simp [zoom_level, h]

/-- Closed witness for C9's override clause at a concrete manual zoom. -/
theorem C9_auto_view_zoom_thresholds_witness :
    zoom_level 7 12 = 7 :=
  C9_auto_view_zoom_thresholds.2.2.1 7 12 (by decide)

end MappingTool
